import Mathlib

/-!
Verification development for the `particula` particle module
(`src/particula/particle.py`).

The module's coagulation-kernel chain delegates to utility modules
(`particula.util.*`) that are not part of the given sources; those parts are
modelled from the specification (marked `Modelled from the spec:` below).
Array quantities are embedded as functions `ℕ → ℝ` (one value per bin), and
pairwise matrices as functions `ℕ → ℕ → ℝ`; floating-point magnitudes are
embedded as real numbers.
-/

open Real Filter Topology

namespace Particula

noncomputable section

/-- Modelled from the spec: environment dynamic viscosity (Pa·s).  The source's
`Particle._coag_prep` does not forward transport properties to
`DimensionlessCoagulation`; the (missing) util layer resolves them from
environment defaults, modelled here as a fixed SI magnitude (spec §8 scenario
value). -/
def environment_dynamic_viscosity : ℝ := 1.8e-5

/-- Modelled from the spec: environment mean free path (m), fixed default as
above. -/
def environment_mean_free_path : ℝ := 66e-9

/-- Modelled from the spec (§4.2, `particula.util.reduced_quantity`):
`reduced(a, b) = a·b/(a+b)`, the harmonic-mean-like reduced quantity. -/
def redq (a b : ℝ) : ℝ := a * b / (a + b)

/-- Modelled from the spec (§4.1, `particula.util.particle_mass.mass`):
`mass = shape_factor × density × (4/3)π·radius³ × (1 − void_volume_fraction)`. -/
def mass (radius density shape_factor volume_void : ℝ) : ℝ :=
  shape_factor * density * (4 / 3 * π * radius ^ 3) * (1 - volume_void)

/-- Modelled from the spec (§4.1, `particula.util.knudsen_number.knu`):
`Kn = mean_free_path / radius`. -/
def knu (radius mfp : ℝ) : ℝ := mfp / radius

/-- Modelled from the spec (§4.1, `particula.util.slip_correction.scf`):
Cunningham slip correction `1 + Kn×(A₁ + A₂·exp(−A₃/Kn))` with literature
constants A₁ = 1.142, A₂ = 0.558, A₃ = 0.999. -/
def scf (knu_val : ℝ) : ℝ :=
  1 + knu_val * (1.142 + 0.558 * Real.exp (-0.999 / knu_val))

/-- Modelled from the spec (§4.1, `particula.util.friction_factor.frifac`):
`6π × dynamic_viscosity × radius / slip_correction_factor`. -/
def frifac (radius dynamic_viscosity scf_val : ℝ) : ℝ :=
  6 * π * dynamic_viscosity * radius / scf_val

/-- Modelled from the spec (§4.3): kinetic-limit Coulomb enhancement factor:
`1+ratio` where `ratio ≥ 0`, `exp(ratio)` where `ratio < 0`. -/
def cekl (ratio : ℝ) : ℝ :=
  if 0 ≤ ratio then 1 + ratio else Real.exp ratio

/-- Modelled from the spec (§4.3): continuum-limit Coulomb enhancement factor:
`ratio / (1 − exp(−ratio))` for `ratio ≠ 0`, with the removable singularity at
`ratio = 0` returning exactly `1` (the limit). -/
def cecl (ratio : ℝ) : ℝ :=
  if ratio = 0 then 1 else ratio / (1 - Real.exp (-ratio))

/-- Modelled from the spec (§4.5): hard-sphere dimensionless coagulation
kernel, the rational closed form in the diffusive Knudsen number with
c1 = 25.836, c2 = 11.211, c3 = 3.502, c4 = 7.211. -/
def hard_sphere (diff_knu : ℝ) : ℝ :=
  (4 * π * diff_knu ^ 2 + 25.836 * diff_knu ^ 3
      + Real.sqrt (8 * π) * 11.211 * diff_knu ^ 4)
    / (1 + 3.502 * diff_knu + 7.211 * diff_knu ^ 2 + 11.211 * diff_knu ^ 3)

/-- Modelled from the spec (§4.5, interp_A): the empirical correction exponent
μ computed from the Coulomb potential ratio.  The spec gives only the fitted
coefficients (2.5, 4.528/−1.088, 0.7091/1.527, 11.36/0.272/−10.33,
−0.003533/0.05971) and the shape of the sub-expressions (a power law, a
logarithmic term, a generalized-exponential combination), deferring the exact
formulas to the missing util source; the combinator used here is a
reconstruction of that generalized-exponential combination and is NOT fixed by
the spec's words. -/
def corr_mu (cpr : ℝ) : ℝ :=
  let corra : ℝ := 2.5
  let corrb : ℝ := 4.528 * Real.exp (-1.088 * cpr)
      + 0.7091 * Real.log (1 + 1.527 * cpr)
  let corrc : ℝ := 11.36 * cpr ^ (0.272 : ℝ) - 10.33
  let corrk : ℝ := -0.003533 * cpr + 0.05971
  (corrc / corra)
    * (1 + corrk * ((Real.log corrb - corrc) / corra)) ^ (-(1 / corrk) - 1)
    * Real.exp (-(1 + corrk * ((Real.log corrb - corrc) / corra)) ^ (-(1 / corrk)))

/-- Modelled from the spec (§4.5): "cg2019"-style parameterization
`hard_sphere(Kn_D) × exp(μ)`, applied unconditionally (no sign branch). -/
def continuum_kinetic_interp_A (diff_knu cpr : ℝ) : ℝ :=
  hard_sphere diff_knu * Real.exp (corr_mu cpr)

/-- Modelled from the spec (§4.5): "gh2012"-style parameterization:
`hard_sphere(Kn_D)` when `potential_ratio ≤ 0.5`, otherwise
`enhancement_continuum / (1 + 1.598·min(Kn_D, 1.5·Kn_D/potential_ratio)^1.1709)`. -/
def continuum_kinetic_interp_B (diff_knu cpr : ℝ) : ℝ :=
  if cpr ≤ 0.5 then hard_sphere diff_knu
  else cecl cpr
    / (1 + 1.598 * (min diff_knu (1.5 * diff_knu / cpr)) ^ (1.1709 : ℝ))

/-- Error kinds of the kernel engine (spec §7). -/
inductive CoagError where
  | invalidParameterization : CoagError
  deriving DecidableEq, Repr

/-- Modelled from the spec (§4.5): the parameterization dispatch of
`dimensionless_kernel` — string selector, fall-through
`InvalidParameterization` for unrecognized values. -/
def coag_less_fn (approx : String) (diff_knu cpr : ℝ) : Except CoagError ℝ :=
  if approx = "hard_sphere" then
    Except.ok (hard_sphere diff_knu)
  else if approx = "continuum_kinetic_interp_A" then
    Except.ok (continuum_kinetic_interp_A diff_knu cpr)
  else if approx = "continuum_kinetic_interp_B" then
    Except.ok (continuum_kinetic_interp_B diff_knu cpr)
  else
    Except.error CoagError.invalidParameterization

/-- Modelled from the spec (§4.2): reduced mass of one pair, from
`ParticleProperties.mass` (default shape factor 1 and void fraction 0, the
values the util layer uses when `_coag_prep` passes only radius and density). -/
def pair_red_mass (r1 d1 r2 d2 : ℝ) : ℝ :=
  redq (mass r1 d1 1 0) (mass r2 d2 1 0)

/-- Modelled from the spec (§4.2): reduced friction factor of one pair, from
`ParticleProperties.friction_factor` with the environment defaults. -/
def pair_red_frifac (r1 r2 : ℝ) : ℝ :=
  redq
    (frifac r1 environment_dynamic_viscosity
      (scf (knu r1 environment_mean_free_path)))
    (frifac r2 environment_dynamic_viscosity
      (scf (knu r2 environment_mean_free_path)))

/-- Modelled from the spec (§4.3): Coulomb potential ratio of one pair:
`−charge_a·charge_b·e² / (4π·ε₀·(r_a+r_b) · k_B·T)`. -/
def pair_cpr (e eps0 kB T q1 q2 r1 r2 : ℝ) : ℝ :=
  -(q1 * q2) * e ^ 2 / (4 * π * eps0 * (r1 + r2) * (kB * T))

/-- Modelled from the spec (§4.4): diffusive Knudsen number of one pair:
`sqrt(k_B·T·reduced_mass)/reduced_friction_factor` divided by
`(r_a + r_b) · enhancement_kinetic / enhancement_continuum`. -/
def pair_diff_knu (e eps0 kB T r1 d1 q1 r2 d2 q2 : ℝ) : ℝ :=
  (Real.sqrt (kB * T * pair_red_mass r1 d1 r2 d2) / pair_red_frifac r1 r2)
    / ((r1 + r2) * cekl (pair_cpr e eps0 kB T q1 q2 r1 r2)
        / cecl (pair_cpr e eps0 kB T q1 q2 r1 r2))

/-- Modelled from the spec (§4.5): dimensionless kernel of one pair under the
selected parameterization. -/
def pair_coag_less (approx : String) (e eps0 kB T r1 d1 q1 r2 d2 q2 : ℝ) :
    Except CoagError ℝ :=
  coag_less_fn approx (pair_diff_knu e eps0 kB T r1 d1 q1 r2 d2 q2)
    (pair_cpr e eps0 kB T q1 q2 r1 r2)

/-- Modelled from the spec (§4.5): dimensioned kernel of one pair:
`dimensionless_kernel × reduced_friction_factor × (r_a+r_b)³ ×
enhancement_kinetic² / reduced_mass / enhancement_continuum`. -/
def pair_coag_full (approx : String) (e eps0 kB T r1 d1 q1 r2 d2 q2 : ℝ) :
    Except CoagError ℝ :=
  (pair_coag_less approx e eps0 kB T r1 d1 q1 r2 d2 q2).map fun less =>
    less * pair_red_frifac r1 r2 * (r1 + r2) ^ 3
        * cekl (pair_cpr e eps0 kB T q1 q2 r1 r2) ^ 2
      / (pair_red_mass r1 d1 r2 d2 * cecl (pair_cpr e eps0 kB T q1 q2 r1 r2))

/-- The argument record of `particula.util.dimensionless_coagulation.
DimensionlessCoagulation` exactly as `Particle._coag_prep`
(src/particula/particle.py lines 372–387) fills it: radii, densities and
charges of the two populations, the temperature, the three physical constants
and the parameterization selector. -/
structure DimensionlessCoagulation where
  radius : ℕ → ℝ
  other_radius : ℕ → ℝ
  density : ℕ → ℝ
  other_density : ℕ → ℝ
  charge : ℕ → ℝ
  other_charge : ℕ → ℝ
  temperature : ℝ
  elementary_charge_value : ℝ
  electric_permittivity : ℝ
  boltzmann_constant : ℝ
  coag_approx : String

/-- Modelled from the spec (§4.2): the pairwise reduced-mass matrix. -/
def DimensionlessCoagulation.get_red_mass (c : DimensionlessCoagulation)
    (i j : ℕ) : ℝ :=
  pair_red_mass (c.radius i) (c.density i) (c.other_radius j) (c.other_density j)

/-- Modelled from the spec (§4.2): the pairwise reduced-friction-factor
matrix. -/
def DimensionlessCoagulation.get_red_frifac (c : DimensionlessCoagulation)
    (i j : ℕ) : ℝ :=
  pair_red_frifac (c.radius i) (c.other_radius j)

/-- Modelled from the spec (§4.3): the triple (potential ratio, kinetic-limit
enhancement, continuum-limit enhancement), indexed `[0]`, `[1]`, `[2]` by the
source's `get_ces()`. -/
def DimensionlessCoagulation.get_ces (c : DimensionlessCoagulation)
    (i j : ℕ) : ℝ × ℝ × ℝ :=
  let cpr := pair_cpr c.elementary_charge_value c.electric_permittivity
    c.boltzmann_constant c.temperature (c.charge i) (c.other_charge j)
    (c.radius i) (c.other_radius j)
  (cpr, cekl cpr, cecl cpr)

/-- Modelled from the spec (§4.4): the pairwise diffusive-Knudsen-number
matrix. -/
def DimensionlessCoagulation.get_diff_knu (c : DimensionlessCoagulation)
    (i j : ℕ) : ℝ :=
  pair_diff_knu c.elementary_charge_value c.electric_permittivity
    c.boltzmann_constant c.temperature (c.radius i) (c.density i) (c.charge i)
    (c.other_radius j) (c.other_density j) (c.other_charge j)

/-- Modelled from the spec (§4.5): the pairwise dimensionless kernel. -/
def DimensionlessCoagulation.coag_less (c : DimensionlessCoagulation)
    (i j : ℕ) : Except CoagError ℝ :=
  pair_coag_less c.coag_approx c.elementary_charge_value c.electric_permittivity
    c.boltzmann_constant c.temperature (c.radius i) (c.density i) (c.charge i)
    (c.other_radius j) (c.other_density j) (c.other_charge j)

/-- Modelled from the spec (§4.5): the pairwise dimensioned kernel. -/
def DimensionlessCoagulation.coag_full (c : DimensionlessCoagulation)
    (i j : ℕ) : Except CoagError ℝ :=
  pair_coag_full c.coag_approx c.elementary_charge_value c.electric_permittivity
    c.boltzmann_constant c.temperature (c.radius i) (c.density i) (c.charge i)
    (c.other_radius j) (c.other_density j) (c.other_charge j)

/-- The `Particle` state (src/particula/particle.py): the fields that the
coagulation chain, `particle_mass` and `particle_saturation_ratio` read.
Arrays are embedded as functions of the bin index. -/
structure Particle where
  particle_radius : ℕ → ℝ
  particle_density : ℕ → ℝ
  particle_charge : ℕ → ℝ
  shape_factor : ℝ
  volume_void : ℝ
  kappa : ℝ
  temperature : ℝ
  elementary_charge_value : ℝ
  electric_permittivity : ℝ
  boltzmann_constant : ℝ
  coagulation_approximation : String

/-- `ParticleInstances.particle_mass` (src lines 181–189): delegates to the
util `mass` with the population's radius, density, shape factor and void
fraction. -/
def Particle.particle_mass (p : Particle) (i : ℕ) : ℝ :=
  mass (p.particle_radius i) (p.particle_density i) p.shape_factor p.volume_void

/-- `ParticleCondensation.particle_saturation_ratio` (src lines 301–321):
`dry_radius` is set to `particle_radius`, the denominator is clamped to at
least `1.0e-30`, and the result is multiplied by the Kelvin term (the missing
`kelvin_term` util is abstracted as a function of the radius). -/
def Particle.particle_saturation_ratio (p : Particle) (kelvin : ℝ → ℝ)
    (i : ℕ) : ℝ :=
  let dry_radius := p.particle_radius i
  (p.particle_radius i ^ 3 - dry_radius ^ 3)
    / max (p.particle_radius i ^ 3 - dry_radius ^ 3 * (1 - p.kappa)) 1.0e-30
    * kelvin (p.particle_radius i)

/-- `Particle._coag_prep` (src lines 372–387): builds the
`DimensionlessCoagulation` argument record from `self` and `other`. -/
def Particle.coag_prep (self other : Particle) : DimensionlessCoagulation :=
  { radius := self.particle_radius
    other_radius := other.particle_radius
    density := self.particle_density
    other_density := other.particle_density
    charge := self.particle_charge
    other_charge := other.particle_charge
    temperature := self.temperature
    elementary_charge_value := self.elementary_charge_value
    electric_permittivity := self.electric_permittivity
    boltzmann_constant := self.boltzmann_constant
    coag_approx := self.coagulation_approximation }

/-- `other or self` (src lines 389–429): a `None` other-population argument
falls back to `self`. -/
def Particle.orSelf (self : Particle) (other : Option Particle) : Particle :=
  other.getD self

/-- `Particle.reduced_mass` (src lines 389–392). -/
def Particle.reduced_mass (self : Particle) (other : Option Particle) :
    ℕ → ℕ → ℝ :=
  (self.coag_prep (self.orSelf other)).get_red_mass

/-- `Particle.reduced_friction_factor` (src lines 394–397). -/
def Particle.reduced_friction_factor (self : Particle)
    (other : Option Particle) : ℕ → ℕ → ℝ :=
  (self.coag_prep (self.orSelf other)).get_red_frifac

/-- `Particle.coulomb_potential_ratio` (src lines 399–402): `get_ces()[0]`. -/
def Particle.coulomb_potential_ratio (self : Particle)
    (other : Option Particle) : ℕ → ℕ → ℝ :=
  fun i j => ((self.coag_prep (self.orSelf other)).get_ces i j).1

/-- `Particle.coulomb_enhancement_kinetic_limit` (src lines 404–408):
`get_ces()[1]`. -/
def Particle.coulomb_enhancement_kinetic_limit (self : Particle)
    (other : Option Particle) : ℕ → ℕ → ℝ :=
  fun i j => ((self.coag_prep (self.orSelf other)).get_ces i j).2.1

/-- `Particle.coulomb_enhancement_continuum_limit` (src lines 410–414):
`get_ces()[2]`. -/
def Particle.coulomb_enhancement_continuum_limit (self : Particle)
    (other : Option Particle) : ℕ → ℕ → ℝ :=
  fun i j => ((self.coag_prep (self.orSelf other)).get_ces i j).2.2

/-- `Particle.diffusive_knudsen_number` (src lines 416–419). -/
def Particle.diffusive_knudsen_number (self : Particle)
    (other : Option Particle) : ℕ → ℕ → ℝ :=
  (self.coag_prep (self.orSelf other)).get_diff_knu

/-- `Particle.dimensionless_coagulation` (src lines 421–424). -/
def Particle.dimensionless_coagulation (self : Particle)
    (other : Option Particle) : ℕ → ℕ → Except CoagError ℝ :=
  (self.coag_prep (self.orSelf other)).coag_less

/-- `Particle.coagulation` (src lines 426–429). -/
def Particle.coagulation (self : Particle) (other : Option Particle) :
    ℕ → ℕ → Except CoagError ℝ :=
  (self.coag_prep (self.orSelf other)).coag_full

/-- The `ParticleDistribution` configuration (src lines 37–55): the fields that
`pre_radius` reads.  `force_radius_start/end/step` hold the magnitude `8392`
when the corresponding kwarg is omitted. -/
structure ParticleDistribution where
  spacing : String
  nbins : ℤ
  cutoff : ℝ
  gsigma : ℝ
  mode : ℝ
  force_radius_start : ℝ
  force_radius_end : ℝ
  force_radius_step : ℝ

/-- `ParticleDistribution.__init__` (src lines 37–55): an omitted
`radius_start`/`radius_end`/`radius_step` kwarg defaults to `8392` (the
missing `in_radius` util attaches the meter unit; magnitudes are kept). -/
def ParticleDistribution.ofKwargs (spacing : String) (nbins : ℤ)
    (cutoff gsigma mode : ℝ)
    (radius_start radius_end radius_step : Option ℝ) : ParticleDistribution :=
  { spacing := spacing
    nbins := nbins
    cutoff := cutoff
    gsigma := gsigma
    mode := mode
    force_radius_start := radius_start.getD 8392
    force_radius_end := radius_end.getD 8392
    force_radius_step := radius_step.getD 8392 }

/-- src lines 68–69: `None if self.force_radius_start.m == 8392 else
self.force_radius_start.m`. -/
def ParticleDistribution.forcing_radius_start (d : ParticleDistribution) :
    Option ℝ :=
  if d.force_radius_start = 8392 then none else some d.force_radius_start

/-- src lines 70–71: the same sentinel test for the forced end radius. -/
def ParticleDistribution.forcing_radius_end (d : ParticleDistribution) :
    Option ℝ :=
  if d.force_radius_end = 8392 then none else some d.force_radius_end

/-- Python `int()` on a float: truncation toward zero. -/
def pyInt (x : ℝ) : ℤ := if 0 ≤ x then ⌊x⌋ else ⌈x⌉

/-- src lines 80–84: the number of grid points — step-derived when
`force_radius_step != 8392`, the configured `nbins` otherwise. -/
def ParticleDistribution.grid_nbins (d : ParticleDistribution)
    (rad_start rad_end : ℝ) : ℤ :=
  if d.force_radius_step ≠ 8392 then
    pyInt ((rad_end - rad_start) / d.force_radius_step) + 2
  else d.nbins

/-- src line 82: when the step is forced, the end radius is realigned to
`rad_start + (nbins-1)*step`. -/
def ParticleDistribution.grid_rad_end (d : ParticleDistribution)
    (rad_start rad_end : ℝ) : ℝ :=
  if d.force_radius_step ≠ 8392 then
    rad_start + ((d.grid_nbins rad_start rad_end : ℝ) - 1) * d.force_radius_step
  else rad_end

/-- `numpy.linspace` with endpoint (the value at index `k` of `num` points). -/
def linspace (start stop : ℝ) (num : ℕ) : List ℝ :=
  (List.range num).map fun k => start + (stop - start) * k / ((num : ℝ) - 1)

/-- `numpy.logspace` with endpoint (base-10). -/
def logspace (start stop : ℝ) (num : ℕ) : List ℝ :=
  (List.range num).map fun k =>
    (10 : ℝ) ^ (start + (stop - start) * k / ((num : ℝ) - 1))

/-- `ParticleDistribution.pre_radius` (src lines 57–101).  The missing
`cut_rad` util (distribution-derived radius cutoff) is abstracted as a
function of the cutoff parameters and the two optional forced bounds. -/
def ParticleDistribution.pre_radius
    (cut_rad : ℝ → ℝ → ℝ → Option ℝ → Option ℝ → ℝ × ℝ)
    (d : ParticleDistribution) : Except String (List ℝ) :=
  let bounds := cut_rad d.cutoff d.gsigma d.mode d.forcing_radius_start
    d.forcing_radius_end
  let rad_start := bounds.1
  let nbins := d.grid_nbins bounds.1 bounds.2
  let rad_end := d.grid_rad_end bounds.1 bounds.2
  if d.spacing = "logspace" then
    Except.ok (logspace (Real.logb 10 rad_start) (Real.logb 10 rad_end)
      nbins.toNat)
  else if d.spacing = "linspace" then
    Except.ok (linspace rad_start rad_end nbins.toNat)
  else
    Except.error "Spacing must be logspace or linspace!"

/-- Populations used to instantiate the theorems on concrete inputs. -/
def sample_particle : Particle :=
  { particle_radius := fun _ => 1e-7
    particle_density := fun _ => 1000
    particle_charge := fun _ => 0
    shape_factor := 1
    volume_void := 0
    kappa := 1
    temperature := 298.15
    elementary_charge_value := 1.6e-19
    electric_permittivity := 8.85e-12
    boltzmann_constant := 1.38e-23
    coagulation_approximation := "hard_sphere" }

/-- A second population sharing the first one's environment, constants and
parameterization selector, with different radii, densities and charges. -/
def sample_particle_b : Particle :=
  { particle_radius := fun _ => 2e-7
    particle_density := fun _ => 1200
    particle_charge := fun _ => 1
    shape_factor := 1
    volume_void := 0
    kappa := 1
    temperature := 298.15
    elementary_charge_value := 1.6e-19
    electric_permittivity := 8.85e-12
    boltzmann_constant := 1.38e-23
    coagulation_approximation := "hard_sphere" }

/-- A population whose parameterization selector is not one of the three
recognized models. -/
def sample_particle_bad : Particle :=
  { particle_radius := fun _ => 1e-7
    particle_density := fun _ => 1000
    particle_charge := fun _ => 0
    shape_factor := 1
    volume_void := 0
    kappa := 1
    temperature := 298.15
    elementary_charge_value := 1.6e-19
    electric_permittivity := 8.85e-12
    boltzmann_constant := 1.38e-23
    coagulation_approximation := "bogus" }

/-- The reduced quantity is symmetric. -/
lemma redq_comm (a b : ℝ) : redq a b = redq b a := by
  unfold redq; rw [mul_comm, add_comm]

/-- The pairwise reduced mass is symmetric. -/
lemma pair_red_mass_comm (r1 d1 r2 d2 : ℝ) :
    pair_red_mass r1 d1 r2 d2 = pair_red_mass r2 d2 r1 d1 :=
  redq_comm _ _

/-- The pairwise reduced friction factor is symmetric. -/
lemma pair_red_frifac_comm (r1 r2 : ℝ) :
    pair_red_frifac r1 r2 = pair_red_frifac r2 r1 :=
  redq_comm _ _

/-- The Coulomb potential ratio is symmetric in the pair. -/
lemma pair_cpr_comm (e eps0 kB T q1 q2 r1 r2 : ℝ) :
    pair_cpr e eps0 kB T q1 q2 r1 r2 = pair_cpr e eps0 kB T q2 q1 r2 r1 := by
  unfold pair_cpr; rw [mul_comm q1 q2, add_comm r1 r2]

/-- The diffusive Knudsen number is symmetric in the pair. -/
lemma pair_diff_knu_comm (e eps0 kB T r1 d1 q1 r2 d2 q2 : ℝ) :
    pair_diff_knu e eps0 kB T r1 d1 q1 r2 d2 q2
      = pair_diff_knu e eps0 kB T r2 d2 q2 r1 d1 q1 := by
  unfold pair_diff_knu
  rw [pair_red_mass_comm, pair_red_frifac_comm, pair_cpr_comm, add_comm r1 r2]

/-- The dimensionless kernel is symmetric in the pair, for every selector. -/
lemma pair_coag_less_comm (approx : String) (e eps0 kB T r1 d1 q1 r2 d2 q2 : ℝ) :
    pair_coag_less approx e eps0 kB T r1 d1 q1 r2 d2 q2
      = pair_coag_less approx e eps0 kB T r2 d2 q2 r1 d1 q1 := by
  unfold pair_coag_less
  rw [pair_diff_knu_comm, pair_cpr_comm]

/-- The dimensioned kernel is symmetric in the pair, for every selector. -/
lemma pair_coag_full_comm (approx : String) (e eps0 kB T r1 d1 q1 r2 d2 q2 : ℝ) :
    pair_coag_full approx e eps0 kB T r1 d1 q1 r2 d2 q2
      = pair_coag_full approx e eps0 kB T r2 d2 q2 r1 d1 q1 := by
  unfold pair_coag_full
  rw [pair_coag_less_comm, pair_red_frifac_comm, pair_red_mass_comm,
    pair_cpr_comm, add_comm r1 r2]

/-- C9: `particle_saturation_ratio` is identically zero: the dry radius is set
equal to `particle_radius`, so the numerator `particle_radius³ − dry_radius³`
is identically `0` while the denominator is clamped to at least `1.0e-30`, and
the result is `0` times the Kelvin term, whatever `kappa`, the radius and the
Kelvin term are. -/
theorem particle_saturation_ratio_eq_zero (p : Particle) (kelvin : ℝ → ℝ)
    (i : ℕ) : p.particle_saturation_ratio kelvin i = 0 := by
  unfold Particle.particle_saturation_ratio
  simp

/-- C8: every pairwise operation called with the other-population argument
omitted (`None`) returns the same result as called with the particle itself,
by the `other or self` defaulting in src lines 389–429. -/
theorem pairwise_defaults_to_self_pairing (p : Particle) :
    p.reduced_mass none = p.reduced_mass (some p)
    ∧ p.reduced_friction_factor none = p.reduced_friction_factor (some p)
    ∧ p.coulomb_potential_ratio none = p.coulomb_potential_ratio (some p)
    ∧ p.coulomb_enhancement_kinetic_limit none
        = p.coulomb_enhancement_kinetic_limit (some p)
    ∧ p.coulomb_enhancement_continuum_limit none
        = p.coulomb_enhancement_continuum_limit (some p)
    ∧ p.diffusive_knudsen_number none = p.diffusive_knudsen_number (some p)
    ∧ p.dimensionless_coagulation none = p.dimensionless_coagulation (some p)
    ∧ p.coagulation none = p.coagulation (some p) :=
  ⟨rfl, rfl, rfl, rfl, rfl, rfl, rfl, rfl⟩

/-- The kinetic-limit enhancement factor is continuous (both branches are
continuous and agree at the branch point `ratio = 0`). -/
lemma continuous_cekl : Continuous cekl := by
  have h : Continuous fun r : ℝ =>
      if (fun _ : ℝ => (0 : ℝ)) r ≤ (fun r : ℝ => r) r then 1 + r
      else Real.exp r := by
    apply Continuous.if_le
    · exact continuous_const.add continuous_id
    · exact Real.continuous_exp
    · exact continuous_const
    · exact continuous_id
    · intro x hx
      rw [← hx]
      simp [Real.exp_zero]
  exact h

/-- C3: the kinetic-limit Coulomb enhancement factor equals `1 + ratio` where
`ratio ≥ 0` and `exp(ratio)` where `ratio < 0`; both branches give exactly `1`
at `ratio = 0`, and the function is continuous there. -/
theorem coulomb_enhancement_kinetic_limit_spec :
    (∀ ratio : ℝ, 0 ≤ ratio → cekl ratio = 1 + ratio)
    ∧ (∀ ratio : ℝ, ratio < 0 → cekl ratio = Real.exp ratio)
    ∧ cekl 0 = 1 ∧ (1 : ℝ) + 0 = 1 ∧ Real.exp (0 : ℝ) = 1
    ∧ ContinuousAt cekl 0 := by
  refine ⟨fun r hr => if_pos hr, fun r hr => if_neg (not_le.mpr hr), ?_,
    by norm_num, Real.exp_zero, continuous_cekl.continuousAt⟩
  unfold cekl
  norm_num

/-- Witness for C3 at concrete ratios `2` and `-1`. -/
theorem coulomb_enhancement_kinetic_limit_spec_witness :
    cekl 2 = 1 + 2 ∧ cekl (-1) = Real.exp (-1) :=
  ⟨coulomb_enhancement_kinetic_limit_spec.1 2 (by norm_num),
    coulomb_enhancement_kinetic_limit_spec.2.1 (-1) (by norm_num)⟩

/-- The slope function of `1 − exp(−x)` at `0` tends to the derivative `1`. -/
lemma tendsto_one_sub_exp_neg_slope :
    Tendsto (slope (fun x : ℝ => 1 - Real.exp (-x)) 0) (𝓝[≠] (0 : ℝ))
      (𝓝 1) := by
  have h1 : HasDerivAt (fun x : ℝ => -x) (-1) 0 := (hasDerivAt_id 0).neg
  have h2 := h1.exp
  have h3 := h2.const_sub 1
  have h4 : HasDerivAt (fun x : ℝ => 1 - Real.exp (-x)) 1 0 := by
    convert h3 using 1
    norm_num
  exact hasDerivAt_iff_tendsto_slope.mp h4

/-- C4: the continuum-limit Coulomb enhancement factor equals
`ratio / (1 − exp(−ratio))` for `ratio ≠ 0`, returns exactly `1` at
`ratio = 0`, and `1` is the limiting value of the nonzero branch (so the
singularity is removable, not an error). -/
theorem coulomb_enhancement_continuum_limit_spec :
    (∀ ratio : ℝ, ratio ≠ 0 → cecl ratio = ratio / (1 - Real.exp (-ratio)))
    ∧ cecl 0 = 1
    ∧ Tendsto cecl (𝓝[≠] (0 : ℝ)) (𝓝 1) := by
  refine ⟨fun r hr => if_neg hr, if_pos rfl, ?_⟩
  have hinv := tendsto_one_sub_exp_neg_slope.inv₀ one_ne_zero
  rw [inv_one] at hinv
  refine Tendsto.congr' ?_ hinv
  filter_upwards [self_mem_nhdsWithin] with y hy
  have hy' : y ≠ 0 := hy
  rw [slope_def_field, cecl, if_neg hy']
  rw [show (1 : ℝ) - Real.exp (-0) = 0 by simp [Real.exp_zero]]
  rw [sub_zero, sub_zero, inv_div]

/-- Witness for C4 at the concrete ratios `1` and `0`. -/
theorem coulomb_enhancement_continuum_limit_spec_witness :
    cecl 1 = 1 / (1 - Real.exp (-1)) ∧ cecl 0 = 1 :=
  ⟨coulomb_enhancement_continuum_limit_spec.1 1 (by norm_num),
    coulomb_enhancement_continuum_limit_spec.2.1⟩

/-- C5: `particle_mass` equals `shape_factor × density × (4/3)π·radius³ ×
(1 − void_volume_fraction)` element-wise; under the data-model invariants
(radius, density, shape factor positive, void fraction in `[0,1)`) the mass is
strictly positive, and it scales as the cube of the radius. -/
theorem particle_mass_spec (p : Particle) (i : ℕ)
    (hr : 0 < p.particle_radius i) (hd : 0 < p.particle_density i)
    (hs : 0 < p.shape_factor) (hv : p.volume_void < 1) :
    p.particle_mass i
        = p.shape_factor * p.particle_density i
          * (4 / 3 * π * p.particle_radius i ^ 3) * (1 - p.volume_void)
    ∧ 0 < p.particle_mass i
    ∧ ∀ c : ℝ, mass (c * p.particle_radius i) (p.particle_density i)
        p.shape_factor p.volume_void = c ^ 3 * p.particle_mass i := by
  refine ⟨rfl, ?_, ?_⟩
  · unfold Particle.particle_mass mass
    have h3 : 0 < p.particle_radius i ^ 3 := pow_pos hr 3
    have h4 : (0 : ℝ) < 4 / 3 * π * p.particle_radius i ^ 3 :=
      mul_pos (by positivity) h3
    exact mul_pos (mul_pos (mul_pos hs hd) h4) (by linarith)
  · intro c
    unfold Particle.particle_mass mass
    ring

/-- Witness for C5 on the sample population. -/
theorem particle_mass_spec_witness :
    sample_particle.particle_mass 0
        = sample_particle.shape_factor * sample_particle.particle_density 0
          * (4 / 3 * π * sample_particle.particle_radius 0 ^ 3)
          * (1 - sample_particle.volume_void)
    ∧ 0 < sample_particle.particle_mass 0
    ∧ ∀ c : ℝ, mass (c * sample_particle.particle_radius 0)
        (sample_particle.particle_density 0) sample_particle.shape_factor
        sample_particle.volume_void = c ^ 3 * sample_particle.particle_mass 0 :=
  particle_mass_spec sample_particle 0 (by norm_num [sample_particle])
    (by norm_num [sample_particle]) (by norm_num [sample_particle])
    (by norm_num [sample_particle])

/-- C6: for every diffusive Knudsen number `Kn_D ≥ 0` the hard-sphere
dimensionless kernel equals the rational closed form with c1 = 25.836,
c2 = 11.211, c3 = 3.502, c4 = 7.211, and `hard_sphere 0 = 0`. -/
theorem hard_sphere_spec :
    (∀ kn : ℝ, 0 ≤ kn →
        hard_sphere kn = (4 * π * kn ^ 2 + 25.836 * kn ^ 3
            + Real.sqrt (8 * π) * 11.211 * kn ^ 4)
          / (1 + 3.502 * kn + 7.211 * kn ^ 2 + 11.211 * kn ^ 3))
    ∧ hard_sphere 0 = 0 := by
  refine ⟨fun kn _ => rfl, ?_⟩
  unfold hard_sphere
  norm_num

/-- Witness for C6 at the concrete Knudsen numbers `1` and `0`. -/
theorem hard_sphere_spec_witness :
    hard_sphere 1 = (4 * π * (1 : ℝ) ^ 2 + 25.836 * (1 : ℝ) ^ 3
        + Real.sqrt (8 * π) * 11.211 * (1 : ℝ) ^ 4)
      / (1 + 3.502 * (1 : ℝ) + 7.211 * (1 : ℝ) ^ 2 + 11.211 * (1 : ℝ) ^ 3)
    ∧ hard_sphere 0 = 0 :=
  ⟨hard_sphere_spec.1 1 (by norm_num), hard_sphere_spec.2⟩

/-- C7: computing the dimensionless (or dimensioned) kernel with a selector
that is none of the three recognized models yields the
`InvalidParameterization` error, and yields a value (no such error) for each
of the three recognized selectors. -/
theorem dimensionless_coagulation_dispatch (p : Particle) (i j : ℕ) :
    (p.coagulation_approximation ≠ "hard_sphere" →
      p.coagulation_approximation ≠ "continuum_kinetic_interp_A" →
      p.coagulation_approximation ≠ "continuum_kinetic_interp_B" →
      p.dimensionless_coagulation none i j
          = Except.error CoagError.invalidParameterization
        ∧ p.coagulation none i j
          = Except.error CoagError.invalidParameterization)
    ∧ (p.coagulation_approximation = "hard_sphere"
        ∨ p.coagulation_approximation = "continuum_kinetic_interp_A"
        ∨ p.coagulation_approximation = "continuum_kinetic_interp_B" →
      (∃ v, p.dimensionless_coagulation none i j = Except.ok v)
        ∧ ∃ v, p.coagulation none i j = Except.ok v) := by
  constructor
  · intro h1 h2 h3
    constructor
    · show pair_coag_less p.coagulation_approximation _ _ _ _ _ _ _ _ _ _ = _
      unfold pair_coag_less coag_less_fn
      rw [if_neg h1, if_neg h2, if_neg h3]
    · show pair_coag_full p.coagulation_approximation _ _ _ _ _ _ _ _ _ _ = _
      unfold pair_coag_full pair_coag_less coag_less_fn
      rw [if_neg h1, if_neg h2, if_neg h3]
      rfl
  · intro h
    have hok : ∃ v, pair_coag_less p.coagulation_approximation
        p.elementary_charge_value p.electric_permittivity p.boltzmann_constant
        p.temperature (p.particle_radius i) (p.particle_density i)
        (p.particle_charge i) (p.particle_radius j) (p.particle_density j)
        (p.particle_charge j) = Except.ok v := by
      unfold pair_coag_less coag_less_fn
      rcases h with h | h | h
      · rw [h, if_pos rfl]
        exact ⟨_, rfl⟩
      · rw [h, if_neg (by decide), if_pos rfl]
        exact ⟨_, rfl⟩
      · rw [h, if_neg (by decide), if_neg (by decide), if_pos rfl]
        exact ⟨_, rfl⟩
    obtain ⟨v, hv⟩ := hok
    refine ⟨⟨v, hv⟩, ?_⟩
    show ∃ w, pair_coag_full p.coagulation_approximation
        p.elementary_charge_value p.electric_permittivity p.boltzmann_constant
        p.temperature (p.particle_radius i) (p.particle_density i)
        (p.particle_charge i) (p.particle_radius j) (p.particle_density j)
        (p.particle_charge j) = Except.ok w
    unfold pair_coag_full
    rw [hv]
    exact ⟨_, rfl⟩

/-- Witness for C7: the recognized selector of the sample population succeeds,
the unrecognized selector `"bogus"` fails with `InvalidParameterization`, for
both the dimensionless and the dimensioned kernel. -/
theorem dimensionless_coagulation_dispatch_witness :
    ((∃ v, sample_particle.dimensionless_coagulation none 0 0 = Except.ok v)
      ∧ ∃ v, sample_particle.coagulation none 0 0 = Except.ok v)
    ∧ (sample_particle_bad.dimensionless_coagulation none 0 0
          = Except.error CoagError.invalidParameterization
        ∧ sample_particle_bad.coagulation none 0 0
          = Except.error CoagError.invalidParameterization) :=
  ⟨(dimensionless_coagulation_dispatch sample_particle 0 0).2
      (Or.inl (by norm_num [sample_particle])),
    (dimensionless_coagulation_dispatch sample_particle_bad 0 0).1
      (by decide) (by decide) (by decide)⟩

/-- C1: for two populations with positive radius and density arrays sharing
the environment (temperature), the physical constants and any of the three
parameterization selectors, the dimensioned coagulation kernel is symmetric:
entry `(i,j)` of `coagulation(a, b)` equals entry `(j,i)` of
`coagulation(b, a)`. -/
theorem coagulation_symm (a b : Particle)
    (hT : a.temperature = b.temperature)
    (hE : a.elementary_charge_value = b.elementary_charge_value)
    (hP : a.electric_permittivity = b.electric_permittivity)
    (hB : a.boltzmann_constant = b.boltzmann_constant)
    (hA : a.coagulation_approximation = b.coagulation_approximation)
    (_hap : a.coagulation_approximation = "hard_sphere"
        ∨ a.coagulation_approximation = "continuum_kinetic_interp_A"
        ∨ a.coagulation_approximation = "continuum_kinetic_interp_B")
    (_hra : ∀ i, 0 < a.particle_radius i)
    (_hrb : ∀ i, 0 < b.particle_radius i)
    (_hda : ∀ i, 0 < a.particle_density i)
    (_hdb : ∀ i, 0 < b.particle_density i)
    (i j : ℕ) :
    a.coagulation (some b) i j = b.coagulation (some a) j i := by
  show pair_coag_full a.coagulation_approximation a.elementary_charge_value
      a.electric_permittivity a.boltzmann_constant a.temperature
      (a.particle_radius i) (a.particle_density i) (a.particle_charge i)
      (b.particle_radius j) (b.particle_density j) (b.particle_charge j)
    = pair_coag_full b.coagulation_approximation b.elementary_charge_value
      b.electric_permittivity b.boltzmann_constant b.temperature
      (b.particle_radius j) (b.particle_density j) (b.particle_charge j)
      (a.particle_radius i) (a.particle_density i) (a.particle_charge i)
  rw [hT, hE, hP, hB, hA]
  exact pair_coag_full_comm _ _ _ _ _ _ _ _ _ _ _

/-- Witness for C1 on the two concrete sample populations. -/
theorem coagulation_symm_witness :
    sample_particle.coagulation (some sample_particle_b) 0 1
      = sample_particle_b.coagulation (some sample_particle) 1 0 :=
  coagulation_symm sample_particle sample_particle_b rfl rfl rfl rfl rfl
    (Or.inl rfl) (fun _ => by norm_num [sample_particle])
    (fun _ => by norm_num [sample_particle_b])
    (fun _ => by norm_num [sample_particle])
    (fun _ => by norm_num [sample_particle_b]) 0 1

/-- C10: supplying `radius_start`, `radius_end` or `radius_step` with the
exact magnitude `8392` is indistinguishable from omitting the kwarg:
`pre_radius` then passes no forced bound to the cutoff utility and uses the
configured `nbins`; only magnitudes different from `8392` force the bounds or
the step-derived bin count. -/
theorem pre_radius_sentinel
    (cut_rad : ℝ → ℝ → ℝ → Option ℝ → Option ℝ → ℝ × ℝ)
    (spacing : String) (nbins : ℤ) (cutoff gsigma mode : ℝ) (v : ℝ)
    (hv : v ≠ 8392) :
    (ParticleDistribution.ofKwargs spacing nbins cutoff gsigma mode
        (some 8392) (some 8392) (some 8392)).pre_radius cut_rad
      = (ParticleDistribution.ofKwargs spacing nbins cutoff gsigma mode
        none none none).pre_radius cut_rad
    ∧ (ParticleDistribution.ofKwargs spacing nbins cutoff gsigma mode
        (some 8392) (some 8392) (some 8392)).forcing_radius_start = none
    ∧ (ParticleDistribution.ofKwargs spacing nbins cutoff gsigma mode
        (some 8392) (some 8392) (some 8392)).forcing_radius_end = none
    ∧ (∀ rs re : ℝ, (ParticleDistribution.ofKwargs spacing nbins cutoff gsigma
        mode (some 8392) (some 8392) (some 8392)).grid_nbins rs re = nbins)
    ∧ (ParticleDistribution.ofKwargs spacing nbins cutoff gsigma mode
        (some v) (some v) (some v)).forcing_radius_start = some v
    ∧ (ParticleDistribution.ofKwargs spacing nbins cutoff gsigma mode
        (some v) (some v) (some v)).forcing_radius_end = some v
    ∧ ∀ rs re : ℝ, (ParticleDistribution.ofKwargs spacing nbins cutoff gsigma
        mode (some v) (some v) (some v)).grid_nbins rs re
      = pyInt ((re - rs) / v) + 2 := by
  refine ⟨rfl, ?_, ?_, ?_, ?_, ?_, ?_⟩
  · simp [ParticleDistribution.ofKwargs, ParticleDistribution.forcing_radius_start]
  · simp [ParticleDistribution.ofKwargs, ParticleDistribution.forcing_radius_end]
  · intro rs re
    simp [ParticleDistribution.ofKwargs, ParticleDistribution.grid_nbins]
  · simp [ParticleDistribution.ofKwargs, ParticleDistribution.forcing_radius_start, hv]
  · simp [ParticleDistribution.ofKwargs, ParticleDistribution.forcing_radius_end, hv]
  · intro rs re
    simp [ParticleDistribution.ofKwargs, ParticleDistribution.grid_nbins, hv]

/-- Witness for C10 with a concrete cutoff utility, configuration and the
non-sentinel magnitude `1e-9`. -/
theorem pre_radius_sentinel_witness :
    (ParticleDistribution.ofKwargs "linspace" 10 0.9999 1.25 1e-7
        (some 8392) (some 8392) (some 8392)).pre_radius
          (fun _ _ _ _ _ => (1e-9, 1e-6))
      = (ParticleDistribution.ofKwargs "linspace" 10 0.9999 1.25 1e-7
        none none none).pre_radius (fun _ _ _ _ _ => (1e-9, 1e-6))
    ∧ (ParticleDistribution.ofKwargs "linspace" 10 0.9999 1.25 1e-7
        (some 8392) (some 8392) (some 8392)).forcing_radius_start = none
    ∧ (ParticleDistribution.ofKwargs "linspace" 10 0.9999 1.25 1e-7
        (some 8392) (some 8392) (some 8392)).forcing_radius_end = none
    ∧ (∀ rs re : ℝ, (ParticleDistribution.ofKwargs "linspace" 10 0.9999 1.25
        1e-7 (some 8392) (some 8392) (some 8392)).grid_nbins rs re = 10)
    ∧ (ParticleDistribution.ofKwargs "linspace" 10 0.9999 1.25 1e-7
        (some 1e-9) (some 1e-9) (some 1e-9)).forcing_radius_start = some 1e-9
    ∧ (ParticleDistribution.ofKwargs "linspace" 10 0.9999 1.25 1e-7
        (some 1e-9) (some 1e-9) (some 1e-9)).forcing_radius_end = some 1e-9
    ∧ ∀ rs re : ℝ, (ParticleDistribution.ofKwargs "linspace" 10 0.9999 1.25
        1e-7 (some 1e-9) (some 1e-9) (some 1e-9)).grid_nbins rs re
      = pyInt ((re - rs) / 1e-9) + 2 :=
  pre_radius_sentinel (fun _ _ _ _ _ => (1e-9, 1e-6)) "linspace" 10 0.9999
    1.25 1e-7 1e-9 (by norm_num)

/-- Witness for C8 on a concrete population. -/
theorem pairwise_defaults_to_self_pairing_witness :
    sample_particle_b.reduced_mass none
        = sample_particle_b.reduced_mass (some sample_particle_b)
    ∧ sample_particle_b.reduced_friction_factor none
        = sample_particle_b.reduced_friction_factor (some sample_particle_b)
    ∧ sample_particle_b.coulomb_potential_ratio none
        = sample_particle_b.coulomb_potential_ratio (some sample_particle_b)
    ∧ sample_particle_b.coulomb_enhancement_kinetic_limit none
        = sample_particle_b.coulomb_enhancement_kinetic_limit
          (some sample_particle_b)
    ∧ sample_particle_b.coulomb_enhancement_continuum_limit none
        = sample_particle_b.coulomb_enhancement_continuum_limit
          (some sample_particle_b)
    ∧ sample_particle_b.diffusive_knudsen_number none
        = sample_particle_b.diffusive_knudsen_number (some sample_particle_b)
    ∧ sample_particle_b.dimensionless_coagulation none
        = sample_particle_b.dimensionless_coagulation (some sample_particle_b)
    ∧ sample_particle_b.coagulation none
        = sample_particle_b.coagulation (some sample_particle_b) :=
  pairwise_defaults_to_self_pairing sample_particle_b

/-- Witness for C9 on a concrete population, `kappa` and Kelvin term. -/
theorem particle_saturation_ratio_eq_zero_witness :
    sample_particle.particle_saturation_ratio (fun r => r + 1) 0 = 0 :=
  particle_saturation_ratio_eq_zero sample_particle (fun r => r + 1) 0

/-- If either charge is zero, the pairwise Coulomb potential ratio is zero
(one determined half of the charge-neutral analysis; the reduction of the
"cg2019"-style parameterization to `hard_sphere` at zero potential ratio is
not determined by the spec, which defers the exact correction exponent to the
missing util source). -/
lemma pair_cpr_eq_zero_of_charge_zero (e eps0 kB T q1 q2 r1 r2 : ℝ)
    (h : q1 = 0 ∨ q2 = 0) : pair_cpr e eps0 kB T q1 q2 r1 r2 = 0 := by
  unfold pair_cpr
  rcases h with h | h <;> rw [h] <;> simp

/-- At zero potential ratio, the "gh2012"-style parameterization takes its
`potential_ratio ≤ 0.5` branch, which is exactly `hard_sphere`. -/
lemma continuum_kinetic_interp_B_at_zero (dk : ℝ) :
    continuum_kinetic_interp_B dk 0 = hard_sphere dk :=
  if_pos (by norm_num)

end

end Particula
